import Mathlib

/-!
Shallow embedding of the Teen_Driver preference-scoring and vehicle-ranking core.

Sources embedded:
* `src/src/lib/retrieval.ts` — preference profile types, `weight`, `scoreBudget`,
  `scoreSafety`, `scoreTags`, `scoreVehicle`, `getTopVehicles`.
* `src/src/lib/preferences.ts` — lookup tables and `mapPreferencesToProfile`.
* `src/src/app/api/vehicle-ranking/route.ts` — `parseDescriptor`.
* `rankVehicleAgainstProfile` is exported by the retrieval module and consumed by the
  vehicle-ranking route, but its body is not among the provided sources; it is modelled
  from the specification (see its doc comment).

Modelling conventions:
* JavaScript numbers are modelled as `ℚ` (all scoring arithmetic here is exact rational
  arithmetic; MSRP figures and NHTSA stars are database integers and stay `Int`).
* `x ?? d` null-coalescing becomes `Option.getD`.
* JS string `trim` / `toLowerCase` are modelled over the character list (`jsTrim`,
  `jsLower`), `Number.parseInt(s, 10)` as `jsParseInt10`.
* `Array.prototype.sort` is a stable sort (ES2019), modelled by `List.mergeSort`;
  the comparator `(a, b) => b.score - a.score` sorts by descending score and keeps
  input order on ties, i.e. the boolean order `b.score ≤ a.score`.
-/

/-- Usage-fit tags (`FitTag` enum of the Prisma schema / `retrieval.ts`). -/
inductive FitTag
  | DAILY_COMMUTE
  | SHARED_FAMILY
  | WEEKEND_ADVENTURE
  | ECO_CONSCIOUS
deriving DecidableEq, Repr

/-- Extras tags (`ExtrasTag` enum of the Prisma schema / `retrieval.ts`). -/
inductive ExtrasTag
  | AMERICAN_MADE
  | BRIGHT_COLOR
  | ECO_CONSCIOUS
  | HIGHER_SEATING
deriving DecidableEq, Repr

/-- Safety levels (`SafetyLevel` in `retrieval.ts`). -/
inductive SafetyLevel
  | baseline
  | advanced
  | max
deriving DecidableEq, Repr

/-- `BudgetPreference` of `retrieval.ts`: optional soft floor/ceiling and priority. -/
structure BudgetPreference where
  min : Option ℚ := none
  max : Option ℚ := none
  priority : Option ℚ := none
deriving DecidableEq, Repr

/-- `SafetyPreference` of `retrieval.ts`. -/
structure SafetyPreference where
  level : SafetyLevel
  priority : Option ℚ := none
deriving DecidableEq, Repr

/-- `TagPreference<T>` of `retrieval.ts`. -/
structure TagPreference (T : Type) where
  tags : List T
  priority : Option ℚ := none
deriving DecidableEq, Repr

/-- `PreferenceProfile` of `retrieval.ts`: the four optional scoring axes. -/
structure PreferenceProfile where
  budget : Option BudgetPreference := none
  safety : Option SafetyPreference := none
  usage : Option (TagPreference FitTag) := none
  extras : Option (TagPreference ExtrasTag) := none
deriving DecidableEq, Repr

/-- Catalog vehicle row (scoring-relevant fields of the Prisma `Vehicle` model; the
descriptive-only fields — tech highlights, fuel economy, imagery, sources — never
participate in scoring or ranking and are omitted). -/
structure Vehicle where
  id : String
  make : String
  model : String
  trim : Option String := none
  years : List Int := []
  msrpMin : Int := 0
  msrpMax : Int := 0
  safetyIihsTopSafetyPick : Bool := false
  safetyNhtsaOverall : Option Int := none
  safetyNotableFeatures : List String := []
  fitTags : List FitTag := []
  extrasTags : List ExtrasTag := []
deriving DecidableEq, Repr

/-- `DEFAULT_PRIORITY` in `retrieval.ts` (and `preferences.ts`). -/
def DEFAULT_PRIORITY : ℚ := 3

/-- `weight(base, priority)` in `retrieval.ts`: `base * (priority ?? DEFAULT_PRIORITY)`. -/
def weight (base : ℚ) (priority : Option ℚ) : ℚ :=
  base * priority.getD DEFAULT_PRIORITY

/-- `scoreBudget(vehicle, pref)` in `retrieval.ts`. The source takes
`max = pref.max ?? Number.POSITIVE_INFINITY`; when `pref.max` is absent both guards
`msrpMax <= max` and `msrpMax <= max - 2000` hold (`∞ - 2000 = ∞` in JS), so the
ceiling component is `6 + 2`, and the `max + 2500` band is unreachable. -/
def scoreBudget (vehicle : Vehicle) (pref : Option BudgetPreference) : ℚ :=
  match pref with
  | none => 0
  | some p =>
    let mn : ℚ := p.min.getD 0
    let ceilScore : Int :=
      match p.max with
      | some mx =>
        if (vehicle.msrpMax : ℚ) ≤ mx then
          6 + (if (vehicle.msrpMax : ℚ) ≤ mx - 2000 then 2 else 0)
        else if (vehicle.msrpMax : ℚ) ≤ mx + 2500 then 2
        else -6
      | none => 6 + 2
    let floorScore : Int :=
      if mn > 0 then
        if (vehicle.msrpMin : ℚ) ≥ mn then 2
        else if (vehicle.msrpMin : ℚ) ≥ mn - 2000 then 1
        else -2
      else 0
    weight ((ceilScore : ℚ) + (floorScore : ℚ)) p.priority

/-- `scoreSafety(vehicle, pref)` in `retrieval.ts`; `nhtsa = safetyNhtsaOverall ?? 0`,
`notable = safetyNotableFeatures.length`. -/
def scoreSafety (vehicle : Vehicle) (pref : Option SafetyPreference) : ℚ :=
  match pref with
  | none => 0
  | some p =>
    let notable := vehicle.safetyNotableFeatures.length
    let nhtsa : Int := vehicle.safetyNhtsaOverall.getD 0
    let iihs := vehicle.safetyIihsTopSafetyPick
    let score : Int :=
      match p.level with
      | .baseline =>
        (if iihs then 4 else 0) + (if nhtsa ≥ 4 then 4 else -2)
      | .advanced =>
        (if iihs then 6 else -4) + (if nhtsa ≥ 5 then 5 else 0) +
          (if notable ≥ 2 then 3 else if notable > 0 then 1 else -2)
      | .max =>
        (if iihs then 8 else -6) + (if nhtsa ≥ 5 then 6 else -4) +
          (if notable ≥ 3 then 4 else -2)
    weight (score : ℚ) p.priority

/-- `scoreTags(vehicleTags, pref, baseWeight)` in `retrieval.ts` (the source defaults
`baseWeight` to 3, but `scoreVehicle` always passes it explicitly). -/
def scoreTags {T : Type} [DecidableEq T] (vehicleTags : List T)
    (pref : Option (TagPreference T)) (baseWeight : ℚ) : ℚ :=
  match pref with
  | none => 0
  | some p =>
    if p.tags.length = 0 then 0
    else
      let matchList := vehicleTags.filter (fun tag => p.tags.contains tag)
      if matchList.length = 0 then weight (-3) p.priority
      else
        let ratio : ℚ := (matchList.length : ℚ) / (p.tags.length : ℚ)
        let bonus : ℚ := (matchList.length : ℚ) * baseWeight
        weight (bonus + ratio * 2) p.priority

/-- Per-axis score breakdown (`scoreBreakdown` record in `retrieval.ts`). -/
structure Breakdown where
  budget : ℚ
  safety : ℚ
  usage : ℚ
  extras : ℚ
deriving DecidableEq, Repr

/-- Return value of `scoreVehicle` in `retrieval.ts`. -/
structure ScoreResult where
  total : ℚ
  breakdown : Breakdown
deriving DecidableEq, Repr

/-- `scoreVehicle(vehicle, profile)` in `retrieval.ts`. -/
def scoreVehicle (vehicle : Vehicle) (profile : PreferenceProfile) : ScoreResult :=
  let budgetScore := scoreBudget vehicle profile.budget
  let safetyScore := scoreSafety vehicle profile.safety
  let usageScore := scoreTags vehicle.fitTags profile.usage 4
  let extrasScore := scoreTags vehicle.extrasTags profile.extras 2
  { total := budgetScore + safetyScore + usageScore + extrasScore
    breakdown :=
      { budget := budgetScore
        safety := safetyScore
        usage := usageScore
        extras := extrasScore } }

/-- `ScoredVehicle` of `retrieval.ts`: a vehicle with its total score and breakdown. -/
structure ScoredVehicle where
  vehicle : Vehicle
  score : ℚ
  scoreBreakdown : Breakdown
deriving DecidableEq, Repr

/-- Scoring plus the descending stable sort shared by `getTopVehicles` and the ranking
lookup: `.map(score).sort((a, b) => b.score - a.score)` in `retrieval.ts`. -/
def scoredSorted (catalog : List Vehicle) (profile : PreferenceProfile) :
    List ScoredVehicle :=
  (catalog.map fun v =>
    let r := scoreVehicle v profile
    ScoredVehicle.mk v r.total r.breakdown).mergeSort
      (fun a b => decide (b.score ≤ a.score))

/-- `getTopVehicles(profile, limit)` in `retrieval.ts`, with the catalog snapshot
(`prisma.vehicle.findMany()`) passed explicitly: score all, sort descending (stable),
slice to `limit`. -/
def getTopVehicles (catalog : List Vehicle) (profile : PreferenceProfile)
    (limit : Nat) : List ScoredVehicle :=
  (scoredSorted catalog profile).take limit

/-- Empty preference profile: no axes set. -/
def emptyProfile : PreferenceProfile := {}

/-- Model of JS `String.prototype.trim`: strip leading and trailing whitespace. -/
def jsTrim (s : String) : String :=
  String.mk
    (((s.data.dropWhile Char.isWhitespace).reverse.dropWhile Char.isWhitespace).reverse)

/-- Incoming raw answer record (`IncomingPreference` in `preferences.ts`; runtime
payloads are loosely typed, so every carried field may be absent). -/
structure IncomingPreference where
  questionId : String
  priority : Option ℚ := none
  type : Option String := none
  selectedValues : Option (List String) := none
  notes : Option String := none
deriving DecidableEq, Repr

/-- Entry of `BUDGET_MAP` in `preferences.ts`. -/
structure BudgetMapEntry where
  min : ℚ
  max : ℚ
  summary : String
deriving DecidableEq, Repr

/-- `BUDGET_MAP` in `preferences.ts`. -/
def BUDGET_MAP : String → Option BudgetMapEntry
  | "value" =>
    some ⟨0, 20000, "Value-first approach; keep total purchase under roughly $20K."⟩
  | "cpo-balance" =>
    some ⟨18000, 32000, "Certified/near-new sweet spot around $18K–$32K."⟩
  | "premium" =>
    some ⟨28000, 50000, "Premium investment ($28K+) for top-tier assurance."⟩
  | _ => none

/-- `SAFETY_MAP` in `preferences.ts`. -/
def SAFETY_MAP : String → Option (SafetyLevel × String)
  | "baseline-safety" =>
    some (.baseline, "Baseline protections (≥4★ NHTSA, camera, stability control).")
  | "advanced-adas" =>
    some (.advanced, "Advanced driver assistance (blind-spot, lane keep, AEB).")
  | "max-safety" =>
    some (.max, "Maximum assurance (Top Safety Pick+, teen monitoring, avoidance suites).")
  | _ => none

/-- `USAGE_MAP` in `preferences.ts`. -/
def USAGE_MAP : String → Option (FitTag × String)
  | "daily-commute" => some (.DAILY_COMMUTE, "Daily commuting & errands focus.")
  | "shared-family" => some (.SHARED_FAMILY, "Shared family duty with flexible seating/cargo.")
  | "adventure" => some (.WEEKEND_ADVENTURE, "Weekend adventures & all-weather capability.")
  | _ => none

/-- `EXTRAS_MAP` in `preferences.ts` (tag and human-readable label). -/
def EXTRAS_MAP : String → Option (ExtrasTag × String)
  | "american-made" => some (.AMERICAN_MADE, "American-made preference")
  | "bright-color" => some (.BRIGHT_COLOR, "High-visibility exterior colour")
  | "eco-conscious" => some (.ECO_CONSCIOUS, "Eco-conscious / efficiency focus")
  | "higher-seating" => some (.HIGHER_SEATING, "Higher seating position")
  | _ => none

/-- `TECH_MAP` in `preferences.ts`. -/
def TECH_MAP : String → Option String
  | "core-connectivity" => some "Core connectivity (CarPlay/Android Auto, USB-C)."
  | "monitoring-suite" =>
    some "Teen monitoring suite (speed alerts, geofencing, remote start)."
  | "premium-tech" => some "Premium tech package (HUD, surround view, adaptive cruise)."
  | _ => none

/-- `TIMELINE_MAP` in `preferences.ts`. -/
def TIMELINE_MAP : String → Option String
  | "two-weeks" => some "Needs a ready-to-drive option within ~2 weeks."
  | "month" => some "Aims to finalise within ~30–45 days."
  | "researching" => some "Still researching; wants education & negotiation prep first."
  | _ => none

/-- `Context` summary object for the downstream text generator (`AgentContext` in
`agent.ts`); quiz answers only ever populate these fields. -/
structure AgentContext where
  budgetSummary : Option String := none
  safetySummary : Option String := none
  usageSummary : Option String := none
  extrasSummary : Option String := none
  techPreference : Option String := none
  timelineExpectation : Option String := none
  notes : Option (List String) := none
deriving DecidableEq, Repr

/-- `getPriority(pref)` in `preferences.ts`: `pref?.priority ?? DEFAULT_PRIORITY`. -/
def getPriority (pref : Option IncomingPreference) : ℚ :=
  (pref.bind IncomingPreference.priority).getD DEFAULT_PRIORITY

/-- `findPreference(preferences, id)` in `preferences.ts`. -/
def findPreference (preferences : List IncomingPreference) (id : String) :
    Option IncomingPreference :=
  preferences.find? (fun pref => pref.questionId == id)

/-- `mapPreferencesToProfile(preferences)` in `preferences.ts`. JS guards of the form
`value ? MAP[value] : undefined` are absorbed into the map lookup: the only falsy
string is `""`, and every map returns `undefined` on `""`. -/
def mapPreferencesToProfile (preferences : List IncomingPreference) :
    PreferenceProfile × AgentContext :=
  let budgetPref := findPreference preferences "budget"
  let safetyPref := findPreference preferences "safety"
  let usagePref := findPreference preferences "usage"
  let extrasPref := findPreference preferences "extras"
  let techPref := findPreference preferences "tech"
  let timelinePref := findPreference preferences "timeline"
  let notesPref := findPreference preferences "notes"

  let profile : PreferenceProfile := {}
  let context : AgentContext := {}

  let budgetValue := (budgetPref.bind IncomingPreference.selectedValues).bind List.head?
  let budgetEntry := budgetValue.bind BUDGET_MAP
  let profile :=
    match budgetEntry with
    | some e =>
      { profile with
          budget := some
            { min := some e.min
              max := some e.max
              priority := some (getPriority budgetPref) } }
    | none => profile
  let context :=
    match budgetEntry with
    | some e => { context with budgetSummary := some e.summary }
    | none => context

  let safetyValue := (safetyPref.bind IncomingPreference.selectedValues).bind List.head?
  let safetyEntry := safetyValue.bind SAFETY_MAP
  let profile :=
    match safetyEntry with
    | some e =>
      { profile with
          safety := some { level := e.1, priority := some (getPriority safetyPref) } }
    | none => profile
  let context :=
    match safetyEntry with
    | some e => { context with safetySummary := some e.2 }
    | none => context

  let usageValue := (usagePref.bind IncomingPreference.selectedValues).bind List.head?
  let usageEntry := usageValue.bind USAGE_MAP
  let profile :=
    match usageEntry with
    | some e =>
      { profile with
          usage := some { tags := [e.1], priority := some (getPriority usagePref) } }
    | none => profile
  let context :=
    match usageEntry with
    | some e => { context with usageSummary := some e.2 }
    | none => context

  let extrasValues := (extrasPref.bind IncomingPreference.selectedValues).getD []
  let extrasEntries := extrasValues.filterMap EXTRAS_MAP
  let profile :=
    if extrasEntries.length ≠ 0 then
      { profile with
          extras := some
            { tags := extrasEntries.map Prod.fst
              priority := some (getPriority extrasPref) } }
    else profile
  let context :=
    if extrasEntries.length ≠ 0 then
      { context with
          extrasSummary := some (String.intercalate ", " (extrasEntries.map Prod.snd)) }
    else context

  let techValue := (techPref.bind IncomingPreference.selectedValues).bind List.head?
  let context :=
    match techValue.bind TECH_MAP with
    | some t => { context with techPreference := some t }
    | none => context

  let timelineValue := (timelinePref.bind IncomingPreference.selectedValues).bind List.head?
  let context :=
    match timelineValue.bind TIMELINE_MAP with
    | some t => { context with timelineExpectation := some t }
    | none => context

  let context :=
    match notesPref.bind IncomingPreference.notes with
    | some n => if jsTrim n ≠ "" then { context with notes := some [jsTrim n] } else context
    | none => context

  (profile, context)

/-- Decimal value of a digit list, most significant first (accumulator form used by the
`Number.parseInt` model). -/
def digitsVal (cs : List Char) : Nat :=
  cs.foldl (fun acc c => acc * 10 + (c.toNat - 48)) 0

/-- Model of JS `Number.parseInt(s, 10)`: skip leading whitespace, read an optional
sign, then take the longest prefix of decimal digits; `none` (JS `NaN`) when there is
no digit. -/
def jsParseInt10 (s : String) : Option Int :=
  let t := s.data.dropWhile Char.isWhitespace
  let signRest : Int × List Char :=
    match t with
    | c :: cs => if c = '-' then (-1, cs) else if c = '+' then (1, cs) else (1, c :: cs)
    | [] => (1, [])
  let digits := signRest.2.takeWhile Char.isDigit
  if digits.isEmpty then none
  else some (signRest.1 * (digitsVal digits : Int))

/-- Loosely-typed JSON field value as seen by `parseDescriptor` (`unknown` in the
route); `num` carries the integral JS numbers relevant to years, `objVal` stands for
any other value shape (object, array). -/
inductive JsVal
  | str (s : String)
  | num (n : Int)
  | bool (b : Bool)
  | null
  | undefined
  | objVal
deriving DecidableEq, Repr

/-- `VehicleDescriptor` in `route.ts`. -/
structure VehicleDescriptor where
  make : String
  model : String
  year : Option Int := none
deriving DecidableEq, Repr

/-- Raw input to `parseDescriptor`: either not an object at all, or an object whose
`make` / `model` / `year` fields hold arbitrary values (`undefined` when absent). -/
inductive DescriptorInput
  | notAnObject
  | obj (make model year : JsVal)
deriving DecidableEq, Repr

/-- `parseDescriptor(input)` in `route.ts`; `throw` is modelled as `Except.error` with
the thrown message. The source tests `year !== undefined && year !== null && year !== ""`
before dispatching on `typeof year`, which is the same as accepting `undefined`, `null`
and `""` as "no year supplied" below. -/
def parseDescriptor : DescriptorInput → Except String VehicleDescriptor
  | .notAnObject => .error "Invalid vehicle descriptor."
  | .obj mk md yr =>
    match mk with
    | .str makeS =>
      if jsTrim makeS = "" then .error "Vehicle make is required."
      else
        match md with
        | .str modelS =>
          if jsTrim modelS = "" then .error "Vehicle model is required."
          else
            match yr with
            | .undefined =>
              .ok { make := jsTrim makeS, model := jsTrim modelS, year := none }
            | .null =>
              .ok { make := jsTrim makeS, model := jsTrim modelS, year := none }
            | .num n =>
              .ok { make := jsTrim makeS, model := jsTrim modelS, year := some n }
            | .str s =>
              if s = "" then
                .ok { make := jsTrim makeS, model := jsTrim modelS, year := none }
              else
                match jsParseInt10 s with
                | some c =>
                  .ok { make := jsTrim makeS, model := jsTrim modelS, year := some c }
                | none => .error "Year must be a valid number."
            | .bool _ => .error "Year must be a string or number value."
            | .objVal => .error "Year must be a string or number value."
        | _ => .error "Vehicle model is required."
    | _ => .error "Vehicle make is required."

/-- Model of JS `String.prototype.toLowerCase` (per-character lowering). -/
def jsLower (s : String) : String :=
  String.mk (s.data.map Char.toLower)

/-- Case-insensitive make+model match between a descriptor and a catalog row, as the
spec prescribes for the single-descriptor ranking lookup. -/
def descriptorMatches (d : VehicleDescriptor) (v : Vehicle) : Bool :=
  jsLower v.make == jsLower d.make && jsLower v.model == jsLower d.model

/-- `RankingResult` of the spec (§3): outcome of the single-vehicle ranking lookup. -/
structure RankingResult where
  matched : Option Vehicle
  rank : Option Nat
  totalCompared : Nat
  leaderboard : List ScoredVehicle
  yearExact : Option Bool
deriving Repr

/-- Modelled from the spec: `rankVehicleAgainstProfile(profile, descriptor,
leaderboardSize)` is exported by `src/src/lib/retrieval.ts` and called by the
vehicle-ranking route, but its body is not among the provided sources. Following
spec §4.2: score and sort the entire catalog exactly as in top-N retrieval; locate a
row matching make+model case-insensitively; if none matches return `matched: null`,
`rank: null`, `yearExact: null` with the full count and the top slice as leaderboard;
if found, `rank` is the 1-based position in the fully sorted list, the leaderboard is
the same top slice, and `yearExact` flags whether a requested year is among the row's
years (`true` when no year was requested). -/
def rankVehicleAgainstProfile (catalog : List Vehicle) (profile : PreferenceProfile)
    (descriptor : VehicleDescriptor) (leaderboardSize : Nat) : RankingResult :=
  let sorted := scoredSorted catalog profile
  let leaderboard := sorted.take leaderboardSize
  match sorted.find? (fun sv => descriptorMatches descriptor sv.vehicle) with
  | none =>
    { matched := none
      rank := none
      totalCompared := sorted.length
      leaderboard := leaderboard
      yearExact := none }
  | some sv =>
    { matched := some sv.vehicle
      rank := some
        (sorted.findIdx (fun sv => descriptorMatches descriptor sv.vehicle) + 1)
      totalCompared := sorted.length
      leaderboard := leaderboard
      yearExact := some
        (match descriptor.year with
         | none => true
         | some y => sv.vehicle.years.contains y) }

/-- Claim C1: for every vehicle and safety preference with level `L` and priority `p`
(default 3 when absent), `scoreSafety` returns `p` times the level-dependent raw sum
(baseline: +4 IIHS else 0, +4 NHTSA ≥ 4 else −2; advanced: +6 IIHS else −4, +5 NHTSA ≥ 5
else 0, +3/+1/−2 by notable-feature count; max: +8 IIHS else −6, +6 NHTSA ≥ 5 else −4,
+4 for ≥ 3 notable features else −2), and 0 when the safety preference is absent. -/
theorem C1_scoreSafety_weighted_sum (v : Vehicle) (L : SafetyLevel) (p : Option ℚ) :
    scoreSafety v (some { level := L, priority := p }) =
      p.getD 3 *
        (((match L with
          | .baseline =>
            (if v.safetyIihsTopSafetyPick then 4 else 0) +
              (if v.safetyNhtsaOverall.getD 0 ≥ 4 then 4 else -2)
          | .advanced =>
            (if v.safetyIihsTopSafetyPick then 6 else -4) +
              (if v.safetyNhtsaOverall.getD 0 ≥ 5 then 5 else 0) +
              (if v.safetyNotableFeatures.length ≥ 2 then 3
               else if v.safetyNotableFeatures.length = 1 then 1 else -2)
          | .max =>
            (if v.safetyIihsTopSafetyPick then 8 else -6) +
              (if v.safetyNhtsaOverall.getD 0 ≥ 5 then 6 else -4) +
              (if v.safetyNotableFeatures.length ≥ 3 then 4 else -2) : Int) : ℚ))
      ∧ scoreSafety v none = 0 := by
  have hnot : ∀ n : Nat, (if n ≥ 2 then (3 : Int) else if n > 0 then 1 else -2)
      = (if n ≥ 2 then 3 else if n = 1 then 1 else -2) := by
    intro n
    split_ifs <;> omega
  refine ⟨?_, by simp [scoreSafety]⟩
  cases L
  case baseline =>
    simp only [scoreSafety, weight, DEFAULT_PRIORITY]
    exact mul_comm _ _
  case advanced =>
    simp only [scoreSafety, weight, DEFAULT_PRIORITY]
    rw [hnot]
    exact mul_comm _ _
  case max =>
    simp only [scoreSafety, weight, DEFAULT_PRIORITY]
    exact mul_comm _ _

/-- Claim C2: for every vehicle and budget preference with priority `p` (default 3),
`scoreBudget` is `p` times the sum of a ceiling component on `msrpMax` (+6 under the
ceiling, +2 more when at least 2000 under it, +2 in the 2500 overage band, −6 beyond;
with an absent `max` read as +∞ both under-ceiling bonuses apply) and, only when
`min > 0` (default 0), a floor component on `msrpMin` (+2 at or above the floor, +1
within 2000 below it, −2 otherwise); and 0 when the budget preference is absent. -/
theorem C2_scoreBudget_weighted_sum (v : Vehicle) (mn mx p : Option ℚ) :
    scoreBudget v (some { min := mn, max := mx, priority := p }) =
      p.getD 3 *
        ((match mx with
          | some m =>
            if (v.msrpMax : ℚ) ≤ m then
              (if (v.msrpMax : ℚ) ≤ m - 2000 then (8 : ℚ) else 6)
            else if (v.msrpMax : ℚ) ≤ m + 2500 then 2
            else -6
          | none => 8) +
         (if mn.getD 0 > 0 then
            (if (v.msrpMin : ℚ) ≥ mn.getD 0 then (2 : ℚ)
             else if (v.msrpMin : ℚ) ≥ mn.getD 0 - 2000 then 1 else -2)
          else 0))
      ∧ scoreBudget v none = 0 := by
  refine ⟨?_, by simp [scoreBudget]⟩
  rcases mx with _ | m <;>
    simp only [scoreBudget, weight, DEFAULT_PRIORITY] <;>
    push_cast [apply_ite (fun z : Int => (z : ℚ))] <;>
    split_ifs <;>
    ring

/-- Claim C9: `scoreSafety` coalesces a missing NHTSA rating to 0 stars, so an unrated
vehicle scores exactly like one rated `some 0`, and — since 0 is below every tier's
threshold (4 at baseline, 5 at advanced and max) — exactly like any vehicle rated below
the tier's threshold, with no distinction between "no rating" and "poor rating". -/
theorem C9_missing_nhtsa_scores_like_below_threshold (v : Vehicle) (p : SafetyPreference)
    (h : v.safetyNhtsaOverall = none) :
    scoreSafety v (some p)
        = scoreSafety { v with safetyNhtsaOverall := some 0 } (some p)
      ∧ ∀ r : Int,
        r < (match p.level with | .baseline => 4 | .advanced => 5 | .max => 5) →
          scoreSafety v (some p)
            = scoreSafety { v with safetyNhtsaOverall := some r } (some p) := by
  obtain ⟨L, pr⟩ := p
  constructor
  · cases L <;> simp [scoreSafety, h]
  · intro r hr
    cases L
    case baseline =>
      simp only at hr
      simp [scoreSafety, h, show ¬((r : Int) ≥ 4) from by omega]
    case advanced =>
      simp only at hr
      simp [scoreSafety, h, show ¬((r : Int) ≥ 5) from by omega]
    case max =>
      simp only at hr
      simp [scoreSafety, h, show ¬((r : Int) ≥ 5) from by omega]

/-- Witness for C9: a concrete unrated vehicle scores at `max` exactly like the same
vehicle rated 0 stars and exactly like the same vehicle rated 3 stars. -/
theorem C9_missing_nhtsa_scores_like_below_threshold_witness :
    scoreSafety
        { id := "w9"
          make := "M"
          model := "X"
          safetyIihsTopSafetyPick := true
          safetyNhtsaOverall := none
          safetyNotableFeatures := ["a"] }
        (some { level := .max, priority := some 2 })
      = scoreSafety
        { id := "w9"
          make := "M"
          model := "X"
          safetyIihsTopSafetyPick := true
          safetyNhtsaOverall := some 0
          safetyNotableFeatures := ["a"] }
        (some { level := .max, priority := some 2 })
    ∧ scoreSafety
        { id := "w9"
          make := "M"
          model := "X"
          safetyIihsTopSafetyPick := true
          safetyNhtsaOverall := none
          safetyNotableFeatures := ["a"] }
        (some { level := .max, priority := some 2 })
      = scoreSafety
        { id := "w9"
          make := "M"
          model := "X"
          safetyIihsTopSafetyPick := true
          safetyNhtsaOverall := some 3
          safetyNotableFeatures := ["a"] }
        (some { level := .max, priority := some 2 }) :=
  ⟨(C9_missing_nhtsa_scores_like_below_threshold _ _ rfl).1,
   (C9_missing_nhtsa_scores_like_below_threshold _ _ rfl).2 3 (by decide)⟩

/-- Counterexample to C4 as stated: a vehicle lacking the IIHS Top Safety Pick but with
a 5-star NHTSA rating and three notable safety features scores 12 at `max` and 12 at
`baseline` (priority 3), so the `max` score is NOT strictly lower than the `baseline`
one. -/
theorem C4_counterexample :
    ¬ (scoreSafety
        { id := "v4"
          make := "M"
          model := "X"
          safetyIihsTopSafetyPick := false
          safetyNhtsaOverall := some 5
          safetyNotableFeatures := ["aeb", "lane keep", "blind spot"] }
        (some { level := .max, priority := some 3 })
      < scoreSafety
        { id := "v4"
          make := "M"
          model := "X"
          safetyIihsTopSafetyPick := false
          safetyNhtsaOverall := some 5
          safetyNotableFeatures := ["aeb", "lane keep", "blind spot"] }
        (some { level := .baseline, priority := some 3 })) := by
  norm_num [scoreSafety, weight, DEFAULT_PRIORITY]

/-- Claim C4 (amended): for every vehicle lacking the IIHS Top Safety Pick and every
fixed nonnegative priority, the safety score at `level = max` is at most (not always
strictly below) the safety score at `level = baseline`; equality occurs exactly for
vehicles with NHTSA ≥ 5 and at least 3 notable features. -/
theorem C4_max_le_baseline_without_iihs (v : Vehicle) (p : Option ℚ)
    (hiihs : v.safetyIihsTopSafetyPick = false)
    (hp : ∀ q ∈ p, (0 : ℚ) ≤ q) :
    scoreSafety v (some { level := .max, priority := p })
      ≤ scoreSafety v (some { level := .baseline, priority := p }) := by
  have hP : (0 : ℚ) ≤ p.getD DEFAULT_PRIORITY := by
    rcases p with _ | q
    · norm_num [DEFAULT_PRIORITY]
    · exact hp q rfl
  simp only [scoreSafety, weight, hiihs, Bool.false_eq_true, if_false]
  refine mul_le_mul_of_nonneg_right ?_ hP
  rw [Int.cast_le]
  split_ifs <;> omega

/-- Witness for the amended C4: a concrete vehicle without the IIHS pick, with the
priority left implicit (so the default 3 applies). -/
theorem C4_max_le_baseline_without_iihs_witness :
    scoreSafety
        { id := "w4"
          make := "M"
          model := "X"
          safetyIihsTopSafetyPick := false
          safetyNhtsaOverall := some 4
          safetyNotableFeatures := [] }
        (some { level := .max, priority := none })
      ≤ scoreSafety
        { id := "w4"
          make := "M"
          model := "X"
          safetyIihsTopSafetyPick := false
          safetyNhtsaOverall := some 4
          safetyNotableFeatures := [] }
        (some { level := .baseline, priority := none }) :=
  C4_max_le_baseline_without_iihs _ none rfl (by simp)

/-- Claim C3: for every tag preference with a non-empty tag list and priority `p`
(default 3), the axis score is `p * (-3)` when the vehicle shares no tag with the
preference, and otherwise `p * (matches * baseWeight + (matches / total) * 2)` where
`matches` counts vehicle tags appearing in the preference tags and `total` is the
preference tag count; an absent preference or empty tag list contributes 0; and within
`scoreVehicle` the usage axis uses base weight 4 and the extras axis base weight 2. -/
theorem C3_tag_overlap_scoring :
    (∀ (T : Type) [DecidableEq T] (vtags : List T) (pt : TagPreference T) (bw : ℚ),
      pt.tags ≠ [] →
        scoreTags vtags (some pt) bw =
          (if (vtags.filter (fun tag => pt.tags.contains tag)).length = 0 then
            pt.priority.getD 3 * (-3)
          else
            pt.priority.getD 3 *
              (((vtags.filter (fun tag => pt.tags.contains tag)).length : ℚ) * bw +
                ((vtags.filter (fun tag => pt.tags.contains tag)).length : ℚ)
                  / (pt.tags.length : ℚ) * 2)))
    ∧ (∀ (T : Type) [DecidableEq T] (vtags : List T) (bw : ℚ),
        scoreTags vtags none bw = 0
        ∧ ∀ pt : TagPreference T, pt.tags = [] → scoreTags vtags (some pt) bw = 0)
    ∧ (∀ (v : Vehicle) (profile : PreferenceProfile),
        (scoreVehicle v profile).breakdown.usage = scoreTags v.fitTags profile.usage 4
        ∧ (scoreVehicle v profile).breakdown.extras
            = scoreTags v.extrasTags profile.extras 2) := by
  refine ⟨?_, ?_, ?_⟩
  · intro T _ vtags pt bw h
    simp only [scoreTags, weight, DEFAULT_PRIORITY]
    rw [if_neg (mt List.length_eq_zero.mp h)]
    split_ifs <;> ring
  · intro T _ vtags bw
    exact ⟨by simp [scoreTags], fun pt h => by simp [scoreTags, h]⟩
  · intro v profile
    exact ⟨rfl, rfl⟩

/-- Witness for C3: a vehicle with no tags against a one-tag preference of priority 2
lands in the no-intersection branch and scores 2 × (−3) = −6. -/
theorem C3_tag_overlap_scoring_witness :
    scoreTags ([] : List FitTag)
      (some { tags := [FitTag.DAILY_COMMUTE], priority := some 2 }) 4 = -6 := by
  rw [C3_tag_overlap_scoring.1 FitTag []
    { tags := [FitTag.DAILY_COMMUTE], priority := some 2 } 4 (by decide)]
  norm_num

/-- Helper: with the empty profile every axis scorer receives `none` and returns 0. -/
theorem scoreVehicle_emptyProfile (v : Vehicle) :
    scoreVehicle v emptyProfile =
      { total := 0
        breakdown := { budget := 0, safety := 0, usage := 0, extras := 0 } } := by
  simp [scoreVehicle, scoreBudget, scoreSafety, scoreTags, emptyProfile]

/-- Claim C5: with the empty profile every vehicle scores total 0 with an all-zero
breakdown, and `getTopVehicles` returns the first `limit` vehicles in catalog snapshot
order (the descending sort is stable, so all-equal scores preserve input order). -/
theorem C5_empty_profile_catalog_order :
    (∀ v : Vehicle,
      scoreVehicle v emptyProfile =
        { total := 0
          breakdown := { budget := 0, safety := 0, usage := 0, extras := 0 } })
    ∧ ∀ (catalog : List Vehicle) (limit : Nat),
        (getTopVehicles catalog emptyProfile limit).map ScoredVehicle.vehicle
          = catalog.take limit := by
  refine ⟨scoreVehicle_emptyProfile, ?_⟩
  intro catalog limit
  unfold getTopVehicles scoredSorted
  have hfun : (fun v : Vehicle =>
      let r := scoreVehicle v emptyProfile
      ScoredVehicle.mk v r.total r.breakdown)
      = fun v : Vehicle =>
        ScoredVehicle.mk v 0 { budget := 0, safety := 0, usage := 0, extras := 0 } := by
    funext v
    rw [scoreVehicle_emptyProfile v]
  rw [hfun]
  have hpw : List.Pairwise (fun a b : ScoredVehicle => decide (b.score ≤ a.score) = true)
      (catalog.map fun v : Vehicle =>
        ScoredVehicle.mk v 0 { budget := 0, safety := 0, usage := 0, extras := 0 }) := by
    rw [List.pairwise_map]
    exact List.pairwise_of_forall fun a b => decide_eq_true (le_refl (0 : ℚ))
  rw [List.mergeSort_of_sorted hpw]
  simp only [List.map_take, List.map_map]
  rw [show (ScoredVehicle.vehicle ∘ fun v : Vehicle =>
    ScoredVehicle.mk v 0 { budget := 0, safety := 0, usage := 0, extras := 0 }) = id
    from rfl, List.map_id]

/-- Helper: erasing the `notes` field of every record commutes with `findPreference`
(the lookup only inspects `questionId`). -/
theorem findPreference_map_eraseNotes (prefs : List IncomingPreference) (id : String) :
    findPreference (prefs.map fun p => { p with notes := none }) id
      = (findPreference prefs id).map fun p => { p with notes := none } := by
  simp only [findPreference, List.find?_map]
  rfl

/-- Counterexample to C6 as stated: for a notes answer with surrounding whitespace the
code stores the TRIMMED text, not the verbatim text, in `Context.notes`. -/
theorem C6_counterexample :
    (mapPreferencesToProfile
        [{ questionId := "notes", notes := some " avoid recalls " }]).2.notes
        = some ["avoid recalls"]
      ∧ (mapPreferencesToProfile
        [{ questionId := "notes", notes := some " avoid recalls " }]).2.notes
        ≠ some [" avoid recalls "] := by
  constructor
  · decide
  · decide

/-- Claim C6 (amended): when a notes record is present with text non-blank after
trimming, `mapPreferencesToProfile` stores the TRIMMED text in `Context.notes` as a
single-element list; when the notes record is absent or the text is blank after
trimming, `Context.notes` is not set; and the notes never influence the returned
`PreferenceProfile` (erasing every record's notes leaves the profile unchanged). -/
theorem C6_notes_trimmed_into_context (prefs : List IncomingPreference) :
    (∀ pref, findPreference prefs "notes" = some pref →
      ∀ n, pref.notes = some n →
        (jsTrim n ≠ "" →
          (mapPreferencesToProfile prefs).2.notes = some [jsTrim n])
        ∧ (jsTrim n = "" → (mapPreferencesToProfile prefs).2.notes = none))
    ∧ ((findPreference prefs "notes").bind IncomingPreference.notes = none →
        (mapPreferencesToProfile prefs).2.notes = none)
    ∧ (mapPreferencesToProfile prefs).1
        = (mapPreferencesToProfile (prefs.map fun p => { p with notes := none })).1 := by
  refine ⟨?_, ?_, ?_⟩
  · intro pref hfind n hn
    refine ⟨fun ht => ?_, fun ht => ?_⟩
    · simp [mapPreferencesToProfile, hfind, hn, ht]
    · simp only [mapPreferencesToProfile, hfind, Option.some_bind, hn]
      rw [if_neg (not_not_intro ht)]
      repeat' split
      all_goals rfl
  · intro hnone
    simp only [mapPreferencesToProfile, hnone]
    repeat' split
    all_goals rfl
  · simp only [mapPreferencesToProfile, findPreference_map_eraseNotes]
    rcases hfb : findPreference prefs "budget" with _ | bp <;>
      rcases hfs : findPreference prefs "safety" with _ | sp <;>
      rcases hfu : findPreference prefs "usage" with _ | up <;>
      rcases hfe : findPreference prefs "extras" with _ | ep <;>
      simp [getPriority]

/-- Witness for the amended C6: a concrete notes answer with surrounding whitespace is
stored trimmed. -/
theorem C6_notes_trimmed_into_context_witness :
    (mapPreferencesToProfile
        [{ questionId := "notes", notes := some " avoid recalls " }]).2.notes
      = some [jsTrim " avoid recalls "] :=
  ((C6_notes_trimmed_into_context
      [{ questionId := "notes", notes := some " avoid recalls " }]).1
    { questionId := "notes", notes := some " avoid recalls " } rfl
    " avoid recalls " rfl).1 (by decide)

/-- Claim C7: normalization and scoring are total functions of this embedding (they
return plain values for every well-typed input — no `Except` anywhere in
`mapPreferencesToProfile`, `scoreBudget`, `scoreSafety`, `scoreTags`, `scoreVehicle`),
while `parseDescriptor` fails, with a non-empty descriptive message, exactly when the
make is missing or blank, the model is missing or blank, or a supplied year is neither
a number nor a parseable numeric string (undefined, null and `""` count as "no year
supplied"); a non-object input is likewise rejected. -/
theorem C7_parser_rejects_exactly_invalid_descriptors :
    (∀ mk md yr : JsVal,
      (∃ d, parseDescriptor (.obj mk md yr) = .ok d)
        ↔ ((∃ s, mk = .str s ∧ jsTrim s ≠ "")
            ∧ (∃ s, md = .str s ∧ jsTrim s ≠ "")
            ∧ (yr = .undefined ∨ yr = .null
                ∨ (∃ n, yr = .num n)
                ∨ (∃ s, yr = .str s ∧ (s = "" ∨ (jsParseInt10 s).isSome = true)))))
    ∧ (∀ input e, parseDescriptor input = .error e → e ≠ "")
    ∧ parseDescriptor .notAnObject = .error "Invalid vehicle descriptor." := by
  refine ⟨?_, ?_, rfl⟩
  · intro mk md yr
    cases mk <;> cases md <;> cases yr <;>
      simp only [parseDescriptor] <;>
      (try split_ifs) <;>
      simp_all [Option.isSome_iff_exists]
    all_goals
      constructor
      · rintro ⟨d, hd⟩
        revert hd
        split <;> simp_all
      · rintro ⟨n, hn⟩
        rw [hn]
        exact ⟨_, rfl⟩
  · intro input e h
    rcases input with _ | ⟨mk, md, yr⟩
    · simp only [parseDescriptor, Except.error.injEq] at h
      subst h
      decide
    · simp only [parseDescriptor] at h
      repeat' split at h
      all_goals
        first
        | exact Except.noConfusion h
        | (simp only [Except.error.injEq] at h; subst h; decide)

/-- Witness for C7: a descriptor with a parseable string year is accepted, and a thrown
message is non-empty. -/
theorem C7_parser_rejects_exactly_invalid_descriptors_witness :
    (∃ d, parseDescriptor (.obj (.str "Honda") (.str "Civic") (.str "2018")) = .ok d)
    ∧ "Year must be a valid number." ≠ "" :=
  ⟨(C7_parser_rejects_exactly_invalid_descriptors.1
        (.str "Honda") (.str "Civic") (.str "2018")).mpr
      ⟨⟨"Honda", rfl, by decide⟩, ⟨"Civic", rfl, by decide⟩,
        Or.inr (Or.inr (Or.inr ⟨"2018", rfl, Or.inr (by decide)⟩))⟩,
    C7_parser_rejects_exactly_invalid_descriptors.2.1
      (.obj (.str "Honda") (.str "Civic") (.str "abc"))
      "Year must be a valid number." rfl⟩

/-- Helper: a decimal digit is not whitespace. -/
theorem not_whitespace_of_digit (c : Char) (h : c.isDigit = true) :
    c.isWhitespace = false := by
  rcases Bool.eq_false_or_eq_true c.isWhitespace with ht | hf
  · exfalso
    simp [Char.isWhitespace] at ht
    rcases ht with ((h1 | h1) | h1) | h1 <;> subst h1 <;> exact absurd h (by decide)
  · exact hf

/-- Helper: `takeWhile isDigit` over an all-digit block followed by a non-digit
remainder returns exactly the block. -/
theorem takeWhile_digits_append (ds rest : List Char)
    (hds : ∀ c ∈ ds, c.isDigit = true)
    (hrest : ∀ c, rest.head? = some c → ¬ c.isDigit = true) :
    (ds ++ rest).takeWhile Char.isDigit = ds := by
  induction ds with
  | nil =>
    cases hr : rest with
    | nil => rfl
    | cons r rs =>
      have hnr : ¬ r.isDigit = true := hrest r (by simp [hr])
      simp [hr, List.takeWhile_cons, hnr]
  | cons d ds ih =>
    have hd : d.isDigit = true := hds d (by simp)
    have ih' := ih (fun c hc => hds c (by simp [hc]))
    simp [List.takeWhile_cons, hd, ih']

/-- Claim C10: `parseDescriptor` parses string years with base-10 `parseInt` semantics:
a string whose leading characters form an integer followed by non-numeric trailing
characters (e.g. "2018abc") is accepted with the leading integer as the year; any
string year parsing to `some n` yields year `n`; a non-empty string with no leading
integer is rejected, as are boolean and object year values; and an empty-string year
is treated as no year supplied. -/
theorem C10_string_year_parseInt_semantics (mk md : String)
    (hmk : jsTrim mk ≠ "") (hmd : jsTrim md ≠ "") :
    (parseDescriptor (.obj (.str mk) (.str md) (.str "2018abc"))
        = .ok { make := jsTrim mk, model := jsTrim md, year := some 2018 })
    ∧ (∀ ds rest : List Char, ds ≠ [] → (∀ c ∈ ds, c.isDigit = true)
        → (∀ c, rest.head? = some c → ¬ c.isDigit = true)
        → jsParseInt10 (String.mk (ds ++ rest)) = some (digitsVal ds))
    ∧ (∀ s n, jsParseInt10 s = some n →
        parseDescriptor (.obj (.str mk) (.str md) (.str s))
          = .ok { make := jsTrim mk, model := jsTrim md, year := some n })
    ∧ (∀ s, s ≠ "" → jsParseInt10 s = none →
        parseDescriptor (.obj (.str mk) (.str md) (.str s))
          = .error "Year must be a valid number.")
    ∧ (∀ b, parseDescriptor (.obj (.str mk) (.str md) (.bool b))
        = .error "Year must be a string or number value.")
    ∧ (parseDescriptor (.obj (.str mk) (.str md) .objVal)
        = .error "Year must be a string or number value.")
    ∧ (parseDescriptor (.obj (.str mk) (.str md) (.str ""))
        = .ok { make := jsTrim mk, model := jsTrim md, year := none }) := by
  have h3 : ∀ s n, jsParseInt10 s = some n →
      parseDescriptor (.obj (.str mk) (.str md) (.str s))
        = .ok { make := jsTrim mk, model := jsTrim md, year := some n } := by
    intro s n h
    by_cases hs : s = ""
    · subst hs
      rw [show jsParseInt10 "" = none from rfl] at h
      exact Option.noConfusion h
    · simp only [parseDescriptor]
      rw [if_neg hmk, if_neg hmd, if_neg hs, h]
  refine ⟨h3 "2018abc" 2018 (by decide), ?_, h3, ?_, ?_, ?_, ?_⟩
  · intro ds rest hne hds hrest
    obtain ⟨d, ds', rfl⟩ : ∃ d ds', ds = d :: ds' := by
      cases ds
      · exact absurd rfl hne
      · exact ⟨_, _, rfl⟩
    have hd : d.isDigit = true := hds d (by simp)
    have hnw : d.isWhitespace = false := not_whitespace_of_digit d hd
    have htw : ((d :: ds') ++ rest).takeWhile Char.isDigit = d :: ds' :=
      takeWhile_digits_append _ _ hds hrest
    have hminus : ¬ d = '-' := by
      intro hcon
      subst hcon
      exact absurd hd (by decide)
    have hplus : ¬ d = '+' := by
      intro hcon
      subst hcon
      exact absurd hd (by decide)
    simp only [List.cons_append] at htw
    simp only [jsParseInt10, List.cons_append, List.dropWhile_cons, hnw,
      Bool.false_eq_true, if_false, if_neg hminus, if_neg hplus, htw]
    simp
  · intro s hs h
    simp only [parseDescriptor]
    rw [if_neg hmk, if_neg hmd, if_neg hs, h]
  · intro b
    simp only [parseDescriptor]
    rw [if_neg hmk, if_neg hmd]
  · simp only [parseDescriptor]
    rw [if_neg hmk, if_neg hmd]
  · simp only [parseDescriptor]
    rw [if_neg hmk, if_neg hmd]
    simp

/-- Witness for C10: the concrete trailing-garbage year "2018abc" is accepted as 2018. -/
theorem C10_string_year_parseInt_semantics_witness :
    parseDescriptor (.obj (.str "Honda") (.str "Civic") (.str "2018abc"))
      = .ok { make := jsTrim "Honda", model := jsTrim "Civic", year := some 2018 } :=
  (C10_string_year_parseInt_semantics "Honda" "Civic" (by decide) (by decide)).1

/-- Claim C8: when no catalog row matches the descriptor's make+model
case-insensitively, the ranking lookup returns `matched = null`, `rank = null`,
`yearExact = null`, `totalCompared` equal to the catalog size, and a leaderboard that
is the top slice of the full ranking — non-empty whenever the catalog is non-empty —
rather than an error. -/
theorem C8_unmatched_descriptor_not_found_result (catalog : List Vehicle)
    (profile : PreferenceProfile) (d : VehicleDescriptor) (n : Nat) (hn : 0 < n)
    (hmiss : ∀ v ∈ catalog, descriptorMatches d v = false) :
    (rankVehicleAgainstProfile catalog profile d n).matched = none
    ∧ (rankVehicleAgainstProfile catalog profile d n).rank = none
    ∧ (rankVehicleAgainstProfile catalog profile d n).yearExact = none
    ∧ (rankVehicleAgainstProfile catalog profile d n).totalCompared = catalog.length
    ∧ (rankVehicleAgainstProfile catalog profile d n).leaderboard
        = (scoredSorted catalog profile).take n
    ∧ (catalog ≠ [] →
        (rankVehicleAgainstProfile catalog profile d n).leaderboard ≠ []) := by
  have hlen : (scoredSorted catalog profile).length = catalog.length := by
    unfold scoredSorted
    rw [(List.mergeSort_perm _ _).length_eq, List.length_map]
  have hfind : (scoredSorted catalog profile).find?
      (fun sv => descriptorMatches d sv.vehicle) = none := by
    rw [List.find?_eq_none]
    intro sv hsv
    have hmem : sv ∈ catalog.map fun v =>
        let r := scoreVehicle v profile
        ScoredVehicle.mk v r.total r.breakdown :=
      (List.mergeSort_perm _ _).subset hsv
    obtain ⟨v, hv, rfl⟩ := List.mem_map.mp hmem
    simp [hmiss v hv]
  simp only [rankVehicleAgainstProfile]
  rw [hfind]
  refine ⟨rfl, rfl, rfl, hlen, rfl, ?_⟩
  intro hcat
  have h1 : (scoredSorted catalog profile) ≠ [] := by
    intro hcon
    apply hcat
    rwa [← List.length_eq_zero, hlen, List.length_eq_zero] at hcon
  simp only [ne_eq, List.take_eq_nil_iff]
  rintro (h | h)
  · omega
  · exact h1 h

/-- Witness for C8: a one-row catalog (Honda Civic) queried for a Ford F150. -/
theorem C8_unmatched_descriptor_not_found_result_witness :
    (rankVehicleAgainstProfile [{ id := "c", make := "Honda", model := "Civic" }]
        emptyProfile { make := "Ford", model := "F150" } 5).matched = none
    ∧ (rankVehicleAgainstProfile [{ id := "c", make := "Honda", model := "Civic" }]
        emptyProfile { make := "Ford", model := "F150" } 5).rank = none
    ∧ (rankVehicleAgainstProfile [{ id := "c", make := "Honda", model := "Civic" }]
        emptyProfile { make := "Ford", model := "F150" } 5).yearExact = none
    ∧ (rankVehicleAgainstProfile [{ id := "c", make := "Honda", model := "Civic" }]
        emptyProfile { make := "Ford", model := "F150" } 5).totalCompared
        = ([{ id := "c", make := "Honda", model := "Civic" }] : List Vehicle).length
    ∧ (rankVehicleAgainstProfile [{ id := "c", make := "Honda", model := "Civic" }]
        emptyProfile { make := "Ford", model := "F150" } 5).leaderboard
        = (scoredSorted [{ id := "c", make := "Honda", model := "Civic" }]
            emptyProfile).take 5
    ∧ (([{ id := "c", make := "Honda", model := "Civic" }] : List Vehicle) ≠ [] →
        (rankVehicleAgainstProfile [{ id := "c", make := "Honda", model := "Civic" }]
          emptyProfile { make := "Ford", model := "F150" } 5).leaderboard ≠ []) :=
  C8_unmatched_descriptor_not_found_result
    [{ id := "c", make := "Honda", model := "Civic" }] emptyProfile
    { make := "Ford", model := "F150" } 5 (by decide) (by decide)
